import Mathlib

/-!
Verification development for the CrossPlatformAppBuilder repository.

The repository's generation core consists of two near-identical generator
variants (`src/src/lib/platforms/cross-platform-generator.ts`, called the
"lib" variant below, and an earlier unnamed variant, called "V1"), a web
sub-generator (`WebGenerator`), and a store-review validator
(`StoreReviewValidator`).  The TypeScript code is shallowly embedded here:
JavaScript values produced by `JSON.parse` are modelled by the inductive
`Json`, fallible/throwing code by `Except`, and the backend (network) calls
by explicit oracle arguments supplying each call's outcome.
-/

/-- A JavaScript JSON value, as produced by `JSON.parse`.  Numbers keep their
source lexeme (no numeric reasoning is needed by any claim). -/
inductive Json where
  | jnull : Json
  | jbool (b : Bool) : Json
  | jnum (lex : String) : Json
  | jstr (s : String) : Json
  | jarr (items : List Json) : Json
  | jobj (fields : List (String × Json)) : Json

/-- Field lookup on a JSON object (JS property access on a parsed value). -/
def Json.getField (j : Json) (key : String) : Option Json :=
  match j with
  | .jobj fields => (fields.find? (fun p => p.1 == key)).map (fun p => p.2)
  | _ => none

/-- The keys of a JSON object, in insertion order. -/
def Json.keys (j : Json) : List String :=
  match j with
  | .jobj fields => fields.map (fun p => p.1)
  | _ => []

/-! ### A model of the JavaScript `JSON.parse` builtin

`JSON.parse` is an external (runtime) collaborator of the repository; it is
modelled by a small executable recursive-descent parser.  Whitespace is
allowed around tokens, and trailing non-whitespace makes the parse fail,
matching the strictness of the builtin. -/

def jsonWs (c : Char) : Bool :=
  c = ' ' || c = '\n' || c = '\t' || c = '\r'

def skipWs : List Char → List Char
  | [] => []
  | c :: cs => if jsonWs c then skipWs cs else c :: cs

/-- Decode a string escape character (the subset exercised here). -/
def escChar (c : Char) : Char :=
  match c with
  | 'n' => '\n'
  | 't' => '\t'
  | 'r' => '\r'
  | c => c

def parseStringBody : List Char → Option (List Char × List Char)
  | [] => none
  | '"' :: rest => some ([], rest)
  | '\\' :: c :: rest =>
      (parseStringBody rest).map (fun p => (escChar c :: p.1, p.2))
  | '\\' :: [] => none
  | c :: rest =>
      (parseStringBody rest).map (fun p => (c :: p.1, p.2))

def numChar (c : Char) : Bool :=
  c.isDigit || c = '.' || c = 'e' || c = 'E' || c = '+' || c = '-'

def lexNumber (cs : List Char) : List Char × List Char :=
  match cs with
  | [] => ([], [])
  | c :: rest =>
      if numChar c then
        let p := lexNumber rest
        (c :: p.1, p.2)
      else
        ([], c :: rest)

mutual

def parseVal : Nat → List Char → Option (Json × List Char)
  | 0, _ => none
  | fuel + 1, cs =>
      match skipWs cs with
      | 'n' :: 'u' :: 'l' :: 'l' :: rest => some (.jnull, rest)
      | 't' :: 'r' :: 'u' :: 'e' :: rest => some (.jbool true, rest)
      | 'f' :: 'a' :: 'l' :: 's' :: 'e' :: rest => some (.jbool false, rest)
      | '"' :: rest => (parseStringBody rest).map (fun p => (.jstr ⟨p.1⟩, p.2))
      | '[' :: rest => parseArrStart fuel rest
      | '{' :: rest => parseObjStart fuel rest
      | c :: rest =>
          if c.isDigit || c = '-' then
            let p := lexNumber (c :: rest)
            if p.1 = [] then none else some (.jnum ⟨p.1⟩, p.2)
          else none
      | [] => none

def parseArrStart : Nat → List Char → Option (Json × List Char)
  | 0, _ => none
  | fuel + 1, cs =>
      match skipWs cs with
      | ']' :: rest => some (.jarr [], rest)
      | cs' =>
          match parseVal fuel cs' with
          | some (v, r) => parseArrRest fuel [v] r
          | none => none

def parseArrRest : Nat → List Json → List Char → Option (Json × List Char)
  | 0, _, _ => none
  | fuel + 1, acc, cs =>
      match skipWs cs with
      | ']' :: rest => some (.jarr acc.reverse, rest)
      | ',' :: rest =>
          match parseVal fuel rest with
          | some (v, r) => parseArrRest fuel (v :: acc) r
          | none => none
      | _ => none

def parseObjStart : Nat → List Char → Option (Json × List Char)
  | 0, _ => none
  | fuel + 1, cs =>
      match skipWs cs with
      | '}' :: rest => some (.jobj [], rest)
      | cs' =>
          match parsePair fuel cs' with
          | some (k, v, r) => parseObjRest fuel [(k, v)] r
          | none => none

def parseObjRest : Nat → List (String × Json) → List Char → Option (Json × List Char)
  | 0, _, _ => none
  | fuel + 1, acc, cs =>
      match skipWs cs with
      | '}' :: rest => some (.jobj acc.reverse, rest)
      | ',' :: rest =>
          match parsePair fuel rest with
          | some (k, v, r) => parseObjRest fuel ((k, v) :: acc) r
          | none => none
      | _ => none

def parsePair : Nat → List Char → Option (String × Json × List Char)
  | 0, _ => none
  | fuel + 1, cs =>
      match skipWs cs with
      | '"' :: rest =>
          match parseStringBody rest with
          | some (k, r) =>
              match skipWs r with
              | ':' :: r2 =>
                  match parseVal fuel r2 with
                  | some (v, r3) => some (⟨k⟩, v, r3)
                  | none => none
              | _ => none
          | none => none
      | _ => none

end

/-- Model of `JSON.parse(s)`: `some` on success, `none` when the builtin
would throw a `SyntaxError`. -/
def jsonParse (s : String) : Option Json :=
  match parseVal (s.length + 2) s.data with
  | some (j, rest) => if skipWs rest = [] then some j else none
  | none => none

example : jsonParse "\x7b\x7d" = some (.jobj []) := by rfl
example : jsonParse " \x7b\"a\": \"b\"\x7d " = some (.jobj [("a", .jstr "b")]) := by rfl
example : jsonParse "not json" = none := by rfl
example : jsonParse "\x7b\"a\":[true,null]\x7d" =
    some (.jobj [("a", .jarr [.jbool true, .jnull])]) := by rfl
example : jsonParse "\x7b\"a\":1\x7d and \x7d" = none := by rfl

/-! ### The regex extraction of `WebGenerator.generateSpec`

`generateSpec` runs `response.content.match(/\{[\s\S]*\}/)` before parsing.
That regular expression matches greedily: its match, when one exists, runs
from the first `\x7b` that is followed by a later `\x7d` to the **last**
`\x7d` of the whole text.  Since any later `\x7d` also lies after the first
`\x7b` of the text, the match exists exactly when the first `\x7b` precedes
the last `\x7d`, and then starts at that first `\x7b`. -/

def firstIdxOf (c : Char) : List Char → Option Nat
  | [] => none
  | x :: xs =>
      if x = c then some 0 else (firstIdxOf c xs).map (· + 1)

def lastIdxOf (c : Char) (cs : List Char) : Option Nat :=
  (firstIdxOf c cs.reverse).map (fun k => cs.length - 1 - k)

/-- Model of `s.match(/\{[\s\S]*\}/)`: the substring from the first `\x7b`
to the last `\x7d`, when the former strictly precedes the latter. -/
def braceMatch (s : String) : Option String :=
  let cs := s.data
  match firstIdxOf '{' cs, lastIdxOf '}' cs with
  | some i, some j =>
      if i < j then some ⟨(cs.drop i).take (j - i + 1)⟩ else none
  | _, _ => none

example : braceMatch "no braces" = none := by rfl
example : braceMatch "pre \x7b\"a\":2\x7d post" = some "\x7b\"a\":2\x7d" := by rfl
example : braceMatch "\x7b\"a\":2\x7d and \x7d done" = some "\x7b\"a\":2\x7d and \x7d" := by rfl
example : braceMatch "\x7d \x7b" = none := by rfl

/-! ### `WebGenerator` (`src/unnamed/part_002`)

The web sub-generator's phase 1 (`generateSpec`) calls the backend and
parses the reply, substituting a fixed default specification when parsing
fails; phase 6 (`listFiles`) deterministically derives the file manifest.
The backend call only influences the result through the reply text, so
`generateSpec` is embedded as a function of that text. -/

namespace WebGenerator

/-- The identifiers of the supported web stacks (`WEB_STACKS` keys). -/
def webStackIds : List String := ["nextjs", "fastapi", "react-express", "vue"]

/-- The default specification substituted by `generateSpec` on parse
failure (the object literal in its `catch` branch). -/
def defaultWebSpec (prompt stack : String) : Json :=
  .jobj
    [ ("name", .jstr "WebApp")
    , ("description", .jstr prompt)
    , ("stack", .jstr stack)
    , ("pages", .jarr [.jstr "Home", .jstr "About", .jstr "Contact"])
    , ("components", .jarr [.jstr "Navbar", .jstr "Footer", .jstr "Button"])
    , ("apiEndpoints", .jarr [])
    , ("features", .jarr [.jstr "responsive"])
    ]

/-- Phase 1: `generateSpec`, as a function of the backend reply text.  The
source tries `JSON.parse(jsonMatch[0])` when the regex matched and
`JSON.parse(response.content)` otherwise; any parse exception lands in the
`catch` branch, which returns `defaultWebSpec`. -/
def generateSpec (prompt stack : String) (content : String) : Json :=
  match braceMatch content with
  | some m =>
      match jsonParse m with
      | some j => j
      | none => defaultWebSpec prompt stack
  | none =>
      match jsonParse content with
      | some j => j
      | none => defaultWebSpec prompt stack

/-- The two fields of the (untyped) specification that `listFiles` reads.
`none` models an absent (`undefined`) field; `spec.pages || ['Home']`
replaces only absent fields, because an empty JS array is truthy. -/
structure SpecFields where
  pages : Option (List String)
  components : Option (List String)

/-- JS `String.prototype.toLowerCase` (ASCII range, as used by page names). -/
def jsToLowerCase (s : String) : String :=
  ⟨s.data.map Char.toLower⟩

def pagesOf (spec : SpecFields) : List String :=
  match spec.pages with
  | some ps => ps
  | none => ["Home"]

def componentsOf (spec : SpecFields) : List String :=
  match spec.components with
  | some cs => cs
  | none => ["Button"]

/-- Phase 6: `listFiles(spec, stack)` — the deterministic file manifest. -/
def listFiles (spec : SpecFields) (stack : String) : List String :=
  if stack = "nextjs" || stack = "vue" then
    (pagesOf spec).map (fun page => "app/" ++ jsToLowerCase page ++ "/page.tsx")
      ++ (componentsOf spec).map (fun comp => "components/" ++ comp ++ ".tsx")
      ++ ["package.json", "tailwind.config.js"]
      ++ (if stack = "nextjs" then ["next.config.js"] else [])
  else if stack = "fastapi" then
    ["main.py", "requirements.txt", "models.py", "schemas.py", "crud.py", "database.py"]
  else if stack = "react-express" then
    ["client/package.json", "client/src/App.tsx", "server/package.json", "server/index.js"]
  else
    []

end WebGenerator

example :
    WebGenerator.generateSpec "p" "nextjs" "utterly not json" =
      WebGenerator.defaultWebSpec "p" "nextjs" := by rfl
example :
    WebGenerator.generateSpec "p" "nextjs" "here: \x7b\"name\":\"A\"\x7d done" =
      .jobj [("name", .jstr "A")] := by rfl
example :
    WebGenerator.listFiles ⟨some ["Home"], some ["Nav"]⟩ "nextjs" =
      ["app/home/page.tsx", "components/Nav.tsx",
       "package.json", "tailwind.config.js", "next.config.js"] := by rfl
example : WebGenerator.listFiles ⟨some ["Home"], some ["Nav"]⟩ "fastapi" =
    ["main.py", "requirements.txt", "models.py", "schemas.py", "crud.py", "database.py"] := by rfl

/-! ### Shared generation types (`src/unnamed/part_000`) -/

inductive Platform where
  | ios
  | android
  | reactNative
  | web
deriving DecidableEq, BEq

structure GenerationRequest where
  prompt : String
  platforms : List Platform
  template : Option String

structure Usage where
  promptTokens : Nat
  completionTokens : Nat
  totalTokens : Nat
deriving DecidableEq

structure AIResponse where
  content : String
  usage : Option Usage
  model : String

structure PlatformCodeMap where
  ios : Option String
  android : Option String
  reactNative : Option String
  web : Option String

/-- Key lookup in the code map: `none` models an absent key. -/
def PlatformCodeMap.get (m : PlatformCodeMap) : Platform → Option String
  | .ios => m.ios
  | .android => m.android
  | .reactNative => m.reactNative
  | .web => m.web

structure GenerationMetadata where
  provider : String
  model : String
  tokensUsed : Nat
  generationTime : Nat
  platforms : List Platform

structure GenerationResponse where
  app : Json
  code : PlatformCodeMap
  metadata : GenerationMetadata

/-- The errors a `generate` call can surface: a rejected backend promise, a
`JSON.parse` exception, or the template-not-found throw. -/
inductive GenError where
  | transport (msg : String)
  | parseError
  | templateNotFound (id : String)
deriving DecidableEq

/-- The read `response.usage?.totalTokens || 0`. -/
def usageTotal (r : AIResponse) : Nat :=
  match r.usage with
  | some u => u.totalTokens
  | none => 0

/-! ### The V1 generator (`src/unnamed/part_001`, class `CrossPlatformGenerator`)

Every backend call is abstracted by an oracle argument giving that call's
outcome: `Except.error` is a rejected fetch promise (transport failure),
`Except.ok` the parsed provider reply.  The app-definition call's outcome is
`builderRes`; each emitter's is `emit p`.  `await` of a rejected promise
rethrows, which the `Except` plumbing mirrors. -/

namespace CrossPlatformGeneratorV1

structure AppTemplate where
  id : String
  name : String
  features : List String

/-- The catalog loader `loadTemplates` returns the empty list (the stubbed template catalog). -/
def loadTemplates : List AppTemplate := []

/-- The prompt path of `generateAppDefinition`: one backend call, then a
bare `JSON.parse` — a parse exception propagates (there is no catch). -/
def buildFromPrompt (builderRes : Except String AIResponse) : Except GenError Json :=
  match builderRes with
  | .error e => .error (.transport e)
  | .ok r =>
      match jsonParse r.content with
      | some j => .ok j
      | none => .error .parseError

/-- The method `generateFromTemplate` looks the id up in `loadTemplates` and throws
`Template not found` when absent; when found it re-enters the prompt path
with a synthesized prompt (dead code, since `loadTemplates` is empty). -/
def generateFromTemplate (templateId : String)
    (builderRes : Except String AIResponse) : Except GenError Json :=
  match loadTemplates.find? (fun t => t.id == templateId) with
  | none => .error (.templateNotFound templateId)
  | some _ => buildFromPrompt builderRes

def generateAppDefinition (template : Option String)
    (builderRes : Except String AIResponse) : Except GenError Json :=
  match template with
  | some tid => generateFromTemplate tid builderRes
  | none => buildFromPrompt builderRes

/-- One `if (platforms.includes(p)) { ... await emitter ... }` block of
`generate`: when requested, the emitter call's text and token count are
recorded; when not requested nothing is (`none`, and no token entry —
contributing 0 to the later sum). -/
def emitStep (requested : Bool) (call : Except String AIResponse) :
    Except String (Option String × Nat) :=
  if requested then
    match call with
    | .ok r => .ok (some r.content, usageTotal r)
    | .error e => .error e
  else
    .ok (none, 0)

/-- The method `CrossPlatformGenerator.generate` of the V1 variant: build the app
definition, then run the four emitter blocks sequentially (each `await`ed,
so any rejection aborts the whole call), then assemble the response with
`tokensUsed` summed over the per-platform token entries. -/
def generate (provider model : String) (request : GenerationRequest)
    (builderRes : Except String AIResponse)
    (emit : Platform → Except String AIResponse)
    (elapsed : Nat) : Except GenError GenerationResponse :=
  match generateAppDefinition request.template builderRes with
  | .error e => .error e
  | .ok app =>
      match emitStep (request.platforms.contains .ios) (emit .ios) with
      | .error e => .error (.transport e)
      | .ok (cIos, tIos) =>
          match emitStep (request.platforms.contains .android) (emit .android) with
          | .error e => .error (.transport e)
          | .ok (cAnd, tAnd) =>
              match emitStep (request.platforms.contains .reactNative) (emit .reactNative) with
              | .error e => .error (.transport e)
              | .ok (cRn, tRn) =>
                  match emitStep (request.platforms.contains .web) (emit .web) with
                  | .error e => .error (.transport e)
                  | .ok (cWeb, tWeb) =>
                      .ok { app := app
                          , code := { ios := cIos, android := cAnd
                                    , reactNative := cRn, web := cWeb }
                          , metadata := { provider := provider, model := model
                                        , tokensUsed := tIos + tAnd + tRn + tWeb
                                        , generationTime := elapsed
                                        , platforms := request.platforms } }

end CrossPlatformGeneratorV1

/-! ### The lib generator (`src/src/lib/platforms/cross-platform-generator.ts`)

Only its app-definition builder is needed by the claims; its `generate`
always stamps `tokensUsed: 0`. -/

namespace CrossPlatformGeneratorLib

/-- The fallback object literal of `generateAppDefinition`'s catch branch.
`now` models `Date.now()`. -/
def defaultAppDef (prompt : String) (now : Nat) : Json :=
  .jobj
    [ ("id", .jstr ("app-" ++ toString now))
    , ("name", .jstr "Generated App")
    , ("description", .jstr prompt)
    , ("platforms", .jarr [.jstr "ios", .jstr "android"])
    , ("screens", .jarr [])
    , ("navigation", .jobj [("type", .jstr "stack"), ("structure", .jarr [])])
    , ("theme", .jobj
        [ ("colors", .jobj
            [ ("primary", .jstr "#007AFF")
            , ("secondary", .jstr "#5856D6")
            , ("background", .jstr "#FFFFFF")
            , ("text", .jstr "#000000") ])
        , ("typography", .jobj [("sizes", .jobj [])])
        , ("spacing", .jobj []) ])
    , ("dataModels", .jarr [])
    , ("globalState", .jarr [])
    , ("features", .jarr [])
    , ("permissions", .jarr []) ]

/-- The lib variant's `generateFromTemplate`: it consults no catalog and
unconditionally returns a fixed object (with the given id), for every
`templateId`.  The `Except` return type records that the function could
throw; it never does. -/
def generateFromTemplate (templateId : String) : Except GenError Json :=
  .ok (.jobj
    [ ("id", .jstr templateId)
    , ("name", .jstr "Template App")
    , ("description", .jstr "Generated from template")
    , ("platforms", .jarr [.jstr "ios", .jstr "android"])
    , ("screens", .jarr [])
    , ("navigation", .jobj [("type", .jstr "stack"), ("structure", .jarr [])])
    , ("theme", .jobj
        [ ("colors", .jobj
            [ ("primary", .jstr "#007AFF")
            , ("secondary", .jstr "#5856D6")
            , ("background", .jstr "#FFFFFF")
            , ("text", .jstr "#000000") ])
        , ("typography", .jobj [("sizes", .jobj [])])
        , ("spacing", .jobj []) ])
    , ("dataModels", .jarr [])
    , ("globalState", .jarr [])
    , ("features", .jarr [])
    , ("permissions", .jarr []) ])

/-- The lib variant's `generateAppDefinition`.  The backend call (`await`,
outside the `try`) can still reject; the `JSON.parse` is wrapped in
`try/catch`, whose catch branch returns `defaultAppDef`. -/
def generateAppDefinition (prompt : String) (template : Option String)
    (builderRes : Except String AIResponse) (now : Nat) : Except GenError Json :=
  match template with
  | some tid => generateFromTemplate tid
  | none =>
      match builderRes with
      | .error e => .error (.transport e)
      | .ok r =>
          match jsonParse r.content with
          | some j => .ok j
          | none => .ok (defaultAppDef prompt now)

end CrossPlatformGeneratorLib

/-! ### `StoreReviewValidator` (`src/src/lib/validation/store-review.ts`)

`validateIOS` pushes its dark-mode warning onto a variable `warnings` that
is declared only inside `validate`, not in `validateIOS` (and not at module
scope); reaching that statement therefore throws a `ReferenceError` at run
time.  The throw is modelled by `Except.error ()`; the issues accumulated
before the throw are discarded, as in JS. -/

namespace StoreReviewValidator

structure ValidationIssue where
  type : String
  category : String
  message : String
  guideline : String
deriving DecidableEq

structure ValidationResult where
  valid : Bool
  score : Nat
  issues : List ValidationIssue
  warnings : List ValidationIssue
  recommendations : List String

/-- The fields of the (untyped) `app` argument that the validator reads;
`none` models an absent property. -/
structure VApp where
  screens : Option (List String) := none
  description : Option String := none
  features : Option (List String) := none
  themeDarkMode : Option Bool := none
  privacyPolicyUrl : Option String := none
  dataSafetyDeclared : Option Bool := none
  name : Option String := none
  screenshots : Option (List String) := none

/-- JS truthiness of an optional string (`undefined` and `""` are falsy). -/
def truthyStr : Option String → Bool
  | none => false
  | some s => !s.data.isEmpty

/-- JS truthiness of an optional boolean. -/
def truthyBool : Option Bool → Bool
  | none => false
  | some b => b

/-- JS `String.prototype.includes`. -/
def strIncludes (s pat : String) : Bool :=
  (List.range (s.data.length + 1)).any (fun i => pat.data.isPrefixOf (s.data.drop i))

def incompleteAppIssue : ValidationIssue :=
  ⟨"error", "Completeness", "App must be complete and fully functional", "2.1 - Performance"⟩

def placeholderContentIssue : ValidationIssue :=
  ⟨"error", "Content", "No placeholder or demo content allowed", "2.3.1 - Accuracy"⟩

def signInWithAppleIssue : ValidationIssue :=
  ⟨"error", "Sign In", "Sign in with Apple required if using social login", "4.1 - Sign in with Apple"⟩

def restorePurchasesIssue : ValidationIssue :=
  ⟨"error", "Purchases", "Restore Purchases button required for IAP", "3.1.1 - In-App Purchase"⟩

def privacyPolicyIssue : ValidationIssue :=
  ⟨"error", "Privacy", "Privacy policy URL required", "Content Policy"⟩

def dataSafetyIssue : ValidationIssue :=
  ⟨"error", "Privacy", "Data Safety form must be completed", "Data Safety"⟩

def appNameIssue : ValidationIssue :=
  ⟨"error", "Content", "App name must be at least 2 characters", "Naming Policy"⟩

def screenshotsIssue : ValidationIssue :=
  ⟨"error", "Content", "At least 2 screenshots required", "Graphic Assets"⟩

/-- The method `validateIOS`.  All four conditional pushes before the warning block
target the local `issues` array and carry `type: 'error'`.  The final block
runs `warnings.push(...)` — on an undeclared name — whenever
`!app.theme?.darkMode`, throwing a `ReferenceError` (`Except.error ()`). -/
def validateIOS (app : VApp) : Except Unit (List ValidationIssue) :=
  let issues :=
    (if (match app.screens with | none => true | some l => l.isEmpty) then
      [incompleteAppIssue] else [])
    ++ (if (match app.description with
            | some d => strIncludes d "placeholder" || strIncludes d "demo"
            | none => false) then
      [placeholderContentIssue] else [])
    ++ (if (match app.features with
            | some fs => fs.any (fun f =>
                f == "google-login" || f == "facebook-login" || f == "twitter-login")
            | none => false) then
      [signInWithAppleIssue] else [])
    ++ (if (match app.features with
            | some fs => fs.contains "in-app-purchases" && !fs.contains "restore-purchases"
            | none => false) then
      [restorePurchasesIssue] else [])
  if truthyBool app.themeDarkMode then .ok issues else .error ()

/-- The method `validateAndroid` (four conditional error pushes; never throws). -/
def validateAndroid (app : VApp) : List ValidationIssue :=
  (if !truthyStr app.privacyPolicyUrl then [privacyPolicyIssue] else [])
  ++ (if !truthyBool app.dataSafetyDeclared then [dataSafetyIssue] else [])
  ++ (if (match app.name with
          | some n => !n.data.isEmpty && n.data.length < 2
          | none => false) then
    [appNameIssue] else [])
  ++ (if (match app.screenshots with | none => true | some l => l.length < 2) then
    [screenshotsIssue] else [])

/-- JS `Math.round` on the non-negative rational `num / den`
(round half up): `floor(num/den + 1/2)`. -/
def jsRound (num den : Nat) : Nat :=
  (2 * num + den) / (2 * den)

/-- The score computation of `validate` (its lines 151–154):
`totalChecks > 0 ? Math.round(((totalChecks - issues) / totalChecks) * 100) : 100`. -/
def scoreOf (numIssues numWarnings : Nat) : Nat :=
  let totalChecks := numIssues + numWarnings
  if totalChecks > 0 then jsRound ((totalChecks - numIssues) * 100) totalChecks else 100

/-- The scoring rule as the specification words it: 100 with no issues and
no warnings, otherwise `round(100 × warnings / (issues + warnings))`. -/
def specScoreRule (numIssues numWarnings : Nat) : Nat :=
  if numIssues = 0 ∧ numWarnings = 0 then 100
  else jsRound (100 * numWarnings) (numIssues + numWarnings)

/-- The method `StoreReviewValidator.validate`. -/
def validate (app : VApp) (platform : Platform) : Except Unit ValidationResult :=
  match (if platform = Platform.ios || platform = Platform.reactNative then
          (validateIOS app).map (fun l =>
            (l.filter (fun i => i.type == "error"), l.filter (fun i => i.type == "warning")))
         else .ok ([], [])) with
  | .error e => .error e
  | .ok (iosErrors, iosWarnings) =>
      let (andErrors, andWarnings) :=
        if platform = Platform.android || platform = Platform.reactNative then
          let l := validateAndroid app
          (l.filter (fun i => i.type == "error"), l.filter (fun i => i.type == "warning"))
        else ([], [])
      let issues := iosErrors ++ andErrors
      let warnings := iosWarnings ++ andWarnings
      .ok { valid := issues.isEmpty
          , score := scoreOf issues.length warnings.length
          , issues := issues
          , warnings := warnings
          , recommendations := [] }

end StoreReviewValidator

/-! ## Claims about the Web Stack Sub-pipeline -/

/-- The phase-1 parse-failure condition of `generateSpec`: the `JSON.parse`
attempt the code makes (on the regex match when one exists, otherwise on
the whole reply text) throws. -/
def WebGenerator.phase1ParseFails (content : String) : Prop :=
  match braceMatch content with
  | some m => jsonParse m = none
  | none => jsonParse content = none

/-- Claim C5. For every prompt and stack, when the phase-1 backend reply of
the Web Stack Sub-pipeline contains no parseable JSON structure,
`WebGenerator.generateSpec` does not raise and returns the substituted
minimal specification: the given stack, exactly the three generic pages
`Home`, `About`, `Contact`, exactly the three generic components `Navbar`,
`Footer`, `Button`, an empty API-endpoint list, and the single feature
`responsive`. -/
theorem c5_generateSpec_parse_failure_defaults
    (prompt stack content : String)
    (h : WebGenerator.phase1ParseFails content) :
    WebGenerator.generateSpec prompt stack content
        = WebGenerator.defaultWebSpec prompt stack
    ∧ (WebGenerator.defaultWebSpec prompt stack).getField "stack"
        = some (.jstr stack)
    ∧ (WebGenerator.defaultWebSpec prompt stack).getField "pages"
        = some (.jarr [.jstr "Home", .jstr "About", .jstr "Contact"])
    ∧ (WebGenerator.defaultWebSpec prompt stack).getField "components"
        = some (.jarr [.jstr "Navbar", .jstr "Footer", .jstr "Button"])
    ∧ (WebGenerator.defaultWebSpec prompt stack).getField "apiEndpoints"
        = some (.jarr [])
    ∧ (WebGenerator.defaultWebSpec prompt stack).getField "features"
        = some (.jarr [.jstr "responsive"]) := by
  unfold WebGenerator.phase1ParseFails at h
  refine ⟨?_, rfl, rfl, rfl, rfl, rfl⟩
  cases hb : braceMatch content with
  | some m =>
      rw [hb] at h
      simp [WebGenerator.generateSpec, hb, h]
  | none =>
      rw [hb] at h
      simp [WebGenerator.generateSpec, hb, h]

/-- Witness for C5 at the concrete reply `"no structure here"`. -/
theorem c5_generateSpec_parse_failure_defaults_witness :
    WebGenerator.generateSpec "todo app" "nextjs" "no structure here"
        = WebGenerator.defaultWebSpec "todo app" "nextjs"
    ∧ (WebGenerator.defaultWebSpec "todo app" "nextjs").getField "stack"
        = some (.jstr "nextjs")
    ∧ (WebGenerator.defaultWebSpec "todo app" "nextjs").getField "pages"
        = some (.jarr [.jstr "Home", .jstr "About", .jstr "Contact"])
    ∧ (WebGenerator.defaultWebSpec "todo app" "nextjs").getField "components"
        = some (.jarr [.jstr "Navbar", .jstr "Footer", .jstr "Button"])
    ∧ (WebGenerator.defaultWebSpec "todo app" "nextjs").getField "apiEndpoints"
        = some (.jarr [])
    ∧ (WebGenerator.defaultWebSpec "todo app" "nextjs").getField "features"
        = some (.jarr [.jstr "responsive"]) :=
  c5_generateSpec_parse_failure_defaults "todo app" "nextjs" "no structure here" (by rfl)

/-- Claim C6 as stated, refuted. There is no per-stack constant making
`listFiles`'s manifest length equal `pages.length + components.length +
constant` for every specification: for the `fastapi` stack the manifest is
the fixed six files `main.py … database.py` regardless of the pages and
components, witnessed by the specs `([], [])` and `(["Home"], [])`. -/
theorem c6_counterexample :
    ¬ ∃ cfg : String → Nat,
        ∀ (pages comps : List String), ∀ stack ∈ WebGenerator.webStackIds,
          (WebGenerator.listFiles ⟨some pages, some comps⟩ stack).length
            = pages.length + comps.length + cfg stack := by
  rintro ⟨cfg, h⟩
  have h0 := h [] [] "fastapi" (by simp [WebGenerator.webStackIds])
  have h1 := h ["Home"] [] "fastapi" (by simp [WebGenerator.webStackIds])
  have e0 : (WebGenerator.listFiles ⟨some [], some []⟩ "fastapi").length = 6 := rfl
  have e1 : (WebGenerator.listFiles ⟨some ["Home"], some []⟩ "fastapi").length = 6 := rfl
  rw [e0] at h0
  rw [e1] at h1
  simp at h0 h1
  omega

/-- Claim C6, amended. The manifest length tracks the specification only for
the `nextjs` and `vue` stacks (3 resp. 2 fixed config files on top of one
file per page and per component); for `fastapi` and `react-express` the
manifest is a fixed list (6 resp. 4 files) independent of the
specification. -/
theorem c6_amended_manifest_length (pages comps : List String) :
    (WebGenerator.listFiles ⟨some pages, some comps⟩ "nextjs").length
        = pages.length + comps.length + 3
    ∧ (WebGenerator.listFiles ⟨some pages, some comps⟩ "vue").length
        = pages.length + comps.length + 2
    ∧ (WebGenerator.listFiles ⟨some pages, some comps⟩ "fastapi").length = 6
    ∧ (WebGenerator.listFiles ⟨some pages, some comps⟩ "react-express").length = 4 := by
  refine ⟨?_, ?_, rfl, rfl⟩ <;>
    simp [WebGenerator.listFiles, WebGenerator.pagesOf, WebGenerator.componentsOf] <;>
    omega

/-- Claim C9 as stated, refuted. `generateSpec` does not parse the first
balanced `{...}` substring: its regex is greedy, running to the last `}` of
the reply.  For the reply `{"name":"A"} tail }` the first balanced
substring parses to `{name: "A"}`, yet `generateSpec` returns the default
substitute. -/
theorem c9_counterexample :
    WebGenerator.generateSpec "p" "nextjs" "\x7b\"name\":\"A\"\x7d tail \x7d"
        = WebGenerator.defaultWebSpec "p" "nextjs"
    ∧ jsonParse "\x7b\"name\":\"A\"\x7d" = some (.jobj [("name", .jstr "A")])
    ∧ WebGenerator.defaultWebSpec "p" "nextjs" ≠ .jobj [("name", .jstr "A")] :=
  ⟨rfl, rfl, by simp [WebGenerator.defaultWebSpec]⟩

/-- Claim C9, amended. `generateSpec` extracts the substring running from the
first `\x7b` of the reply to its last `\x7d` (the greedy match of
`/\{[\s\S]*\}/`) and strictly parses that substring; on its parse failure
the default substitute is returned (the whole reply is not re-tried). -/
theorem c9_amended_greedy_extraction (prompt stack content m : String)
    (hm : braceMatch content = some m) :
    WebGenerator.generateSpec prompt stack content
      = (match jsonParse m with
         | some j => j
         | none => WebGenerator.defaultWebSpec prompt stack) := by
  simp [WebGenerator.generateSpec, hm]

/-- Witness for the amended C9 at the concrete reply `"x{}y"`, whose greedy
brace match is `"{}"`. -/
theorem c9_amended_greedy_extraction_witness :
    WebGenerator.generateSpec "p" "nextjs" "x\x7b\x7dy"
      = (match jsonParse "\x7b\x7d" with
         | some j => j
         | none => WebGenerator.defaultWebSpec "p" "nextjs") :=
  c9_amended_greedy_extraction "p" "nextjs" "x\x7b\x7dy" "\x7b\x7d" rfl

/-! ## Claims about the Application Model Builder -/

/-- Claim C1 as stated, refuted. On parse failure the lib builder's
substituted default model has a four-key palette — `accent` and `surface`
are missing (the object literal at lines 99–111 also fails the repository's
own `ColorPalette` interface, which requires all six) — and its platform
list is the fixed `['ios','android']`, not the request's: here the request
asked for `['web']` only. -/
theorem c1_counterexample :
    (CrossPlatformGeneratorLib.generateAppDefinition "p" none
        (.ok ⟨"definitely not json", none, "m"⟩) 0).map (fun j =>
          ((j.getField "theme").bind (fun t => t.getField "colors")).map Json.keys)
      = .ok (some ["primary", "secondary", "background", "text"])
    ∧ "accent" ∉ ["primary", "secondary", "background", "text"]
    ∧ "surface" ∉ ["primary", "secondary", "background", "text"]
    ∧ (CrossPlatformGeneratorLib.generateAppDefinition "p" none
        (.ok ⟨"definitely not json", none, "m"⟩) 0).map (fun j => j.getField "platforms")
      = .ok (some (.jarr [.jstr "ios", .jstr "android"]))
    ∧ Json.jarr [.jstr "ios", .jstr "android"] ≠ .jarr [.jstr "web"] :=
  ⟨rfl, by decide, by decide, rfl, by simp⟩

/-- Claim C1, amended. For every prompt and every backend reply text that
does not parse as JSON, the lib builder (`generateAppDefinition` without a
template) does not raise: it returns the substituted default model, whose
palette defines exactly the four keys `primary`, `secondary`, `background`,
`text` (not `accent` or `surface`), whose navigation type is the valid tag
`stack`, whose description is the caller's literal prompt, whose screen
list is empty, and whose platform list is the fixed `['ios','android']`
regardless of the generation request. -/
theorem c1_amended_default_model (prompt content mdl : String)
    (u : Option Usage) (now : Nat) (h : jsonParse content = none) :
    CrossPlatformGeneratorLib.generateAppDefinition prompt none (.ok ⟨content, u, mdl⟩) now
        = .ok (CrossPlatformGeneratorLib.defaultAppDef prompt now)
    ∧ ((CrossPlatformGeneratorLib.defaultAppDef prompt now).getField "theme").bind
        (fun t => (t.getField "colors").map Json.keys)
      = some ["primary", "secondary", "background", "text"]
    ∧ ((CrossPlatformGeneratorLib.defaultAppDef prompt now).getField "navigation").bind
        (fun n => n.getField "type") = some (.jstr "stack")
    ∧ (CrossPlatformGeneratorLib.defaultAppDef prompt now).getField "description"
      = some (.jstr prompt)
    ∧ (CrossPlatformGeneratorLib.defaultAppDef prompt now).getField "screens"
      = some (.jarr [])
    ∧ (CrossPlatformGeneratorLib.defaultAppDef prompt now).getField "platforms"
      = some (.jarr [.jstr "ios", .jstr "android"]) := by
  refine ⟨?_, rfl, rfl, rfl, rfl, rfl⟩
  simp [CrossPlatformGeneratorLib.generateAppDefinition, h]

/-- Witness for the amended C1 at the concrete reply `"plain prose"`. -/
theorem c1_amended_default_model_witness :
    CrossPlatformGeneratorLib.generateAppDefinition "todo app" none
        (.ok ⟨"plain prose", none, "m"⟩) 0
        = .ok (CrossPlatformGeneratorLib.defaultAppDef "todo app" 0)
    ∧ ((CrossPlatformGeneratorLib.defaultAppDef "todo app" 0).getField "theme").bind
        (fun t => (t.getField "colors").map Json.keys)
      = some ["primary", "secondary", "background", "text"]
    ∧ ((CrossPlatformGeneratorLib.defaultAppDef "todo app" 0).getField "navigation").bind
        (fun n => n.getField "type") = some (.jstr "stack")
    ∧ (CrossPlatformGeneratorLib.defaultAppDef "todo app" 0).getField "description"
      = some (.jstr "todo app")
    ∧ (CrossPlatformGeneratorLib.defaultAppDef "todo app" 0).getField "screens"
      = some (.jarr [])
    ∧ (CrossPlatformGeneratorLib.defaultAppDef "todo app" 0).getField "platforms"
      = some (.jarr [.jstr "ios", .jstr "android"]) :=
  c1_amended_default_model "todo app" "plain prose" "m" none 0 (by rfl)

/-- Claim C4 as stated, refuted. The lib variant's `generateFromTemplate`
consults no catalog: for the unknown id `"unknown-id"` it does not fail but
returns the fixed substituted model named `Template App`. -/
theorem c4_counterexample :
    (CrossPlatformGeneratorLib.generateFromTemplate "unknown-id").map
        (fun j => (j.getField "id", j.getField "name"))
      = .ok (some (.jstr "unknown-id"), some (.jstr "Template App"))
    ∧ CrossPlatformGeneratorLib.generateFromTemplate "unknown-id"
        ≠ .error (.templateNotFound "unknown-id") :=
  ⟨rfl, by simp [CrossPlatformGeneratorLib.generateFromTemplate]⟩

/-- Claim C4, amended. The two variants disagree.  The V1 variant's
`generateFromTemplate` throws `Template not found` for **every** template
id (its `loadTemplates` catalog is empty), so unknown ids do fail hard
there and no model is produced; the lib variant's `generateFromTemplate`
never fails and silently returns a fixed default model carrying the given
id, for unknown ids included. -/
theorem c4_amended_template_policy :
    (∀ (tid : String) (b : Except String AIResponse),
        CrossPlatformGeneratorV1.generateFromTemplate tid b
          = .error (.templateNotFound tid))
    ∧ (∀ tid : String,
        (CrossPlatformGeneratorLib.generateFromTemplate tid).map
            (fun j => (j.getField "id", j.getField "name"))
          = .ok (some (.jstr tid), some (.jstr "Template App"))) :=
  ⟨fun _ _ => rfl, fun _ => rfl⟩

/-! ## Claims about the Orchestrator (`CrossPlatformGeneratorV1.generate`) -/

/-- The android emitter call is a transport timeout; all other calls
succeed. -/
def emitAndroidFails : Platform → Except String AIResponse :=
  fun p =>
    match p with
    | .android => .error "transport timeout"
    | _ => .ok ⟨"// code", none, "m"⟩

/-- Claim C2 as stated, refuted. With all four targets requested and only
the android emitter's backend call failing, `generate` does not return a
Generation Result with entries for the three surviving targets and a
failure record: the rejected `await` propagates and the whole call fails. -/
theorem c2_counterexample :
    CrossPlatformGeneratorV1.generate "claude" "m"
        ⟨"todo app", [.ios, .android, .reactNative, .web], none⟩
        (.ok ⟨"\x7b\x7d", none, "m"⟩) emitAndroidFails 0
      = .error (.transport "transport timeout")
    ∧ (emitAndroidFails .ios).toOption.isSome = true
    ∧ (emitAndroidFails .web).toOption.isSome = true :=
  ⟨rfl, rfl, rfl⟩

/-- Claim C2, amended. A failed emitter backend call aborts the whole
`generate` call: whenever the app definition was built, the ios emitter
block completed, android is requested and its emitter call rejects,
`generate` returns that transport error — no partial code map and no
per-target failure record are produced. -/
theorem c2_amended_emitter_failure_aborts (provider mdl : String)
    (req : GenerationRequest) (b : Except String AIResponse)
    (emit : Platform → Except String AIResponse) (elapsed : Nat)
    (app : Json) (p : Option String × Nat) (e : String)
    (hb : CrossPlatformGeneratorV1.generateAppDefinition req.template b = .ok app)
    (hi : CrossPlatformGeneratorV1.emitStep (req.platforms.contains .ios) (emit .ios)
            = .ok p)
    (hand : req.platforms.contains .android = true)
    (he : emit .android = .error e) :
    CrossPlatformGeneratorV1.generate provider mdl req b emit elapsed
      = .error (.transport e) := by
  obtain ⟨c, t⟩ := p
  unfold CrossPlatformGeneratorV1.generate
  rw [hb, hi]
  simp [CrossPlatformGeneratorV1.emitStep, hand, he]

/-- Witness for the amended C2 at a concrete two-target request. -/
theorem c2_amended_emitter_failure_aborts_witness :
    CrossPlatformGeneratorV1.generate "claude" "m"
        ⟨"todo app", [.ios, .android], none⟩
        (.ok ⟨"\x7b\x7d", none, "m"⟩) emitAndroidFails 0
      = .error (.transport "transport timeout") :=
  c2_amended_emitter_failure_aborts "claude" "m"
    ⟨"todo app", [.ios, .android], none⟩ (.ok ⟨"\x7b\x7d", none, "m"⟩)
    emitAndroidFails 0 (.jobj []) (some "// code", 0) "transport timeout"
    rfl rfl rfl rfl

/-- An `emitStep` that returned normally recorded text exactly when the
platform was requested. -/
theorem emitStep_ok_isSome (b : Bool) (call : Except String AIResponse)
    (o : Option String) (t : Nat)
    (h : CrossPlatformGeneratorV1.emitStep b call = .ok (o, t)) :
    o.isSome = b := by
  unfold CrossPlatformGeneratorV1.emitStep at h
  cases b with
  | false =>
      simp only [Bool.false_eq_true, if_false, Except.ok.injEq, Prod.mk.injEq] at h
      rw [← h.1]
      rfl
  | true =>
      rw [if_pos rfl] at h
      cases call with
      | error e => exact absurd h (by simp)
      | ok r =>
          simp only [Except.ok.injEq, Prod.mk.injEq] at h
          rw [← h.1]
          rfl

/-- The token count an emitter call contributes when requested:
`usage?.totalTokens || 0` of its reply, 0 when the call failed (a failed
call never reaches the token bookkeeping). -/
def emitUsage : Except String AIResponse → Nat
  | .ok r => usageTotal r
  | .error _ => 0

/-- An `emitStep` that returned normally recorded the reply's token count
when the platform was requested and 0 otherwise. -/
theorem emitStep_ok_tokens (b : Bool) (call : Except String AIResponse)
    (o : Option String) (t : Nat)
    (h : CrossPlatformGeneratorV1.emitStep b call = .ok (o, t)) :
    t = if b then emitUsage call else 0 := by
  unfold CrossPlatformGeneratorV1.emitStep at h
  cases b with
  | false =>
      simp only [Bool.false_eq_true, if_false, Except.ok.injEq, Prod.mk.injEq] at h
      rw [← h.2]
      rfl
  | true =>
      rw [if_pos rfl] at h
      cases call with
      | error e => exact absurd h (by simp)
      | ok r =>
          simp only [Except.ok.injEq, Prod.mk.injEq] at h
          rw [← h.2, if_pos rfl]
          rfl

/-- Claim C3. Whenever `generate` returns a Generation Result, its code map
has a key exactly for each requested target (every requested emitter
succeeded, or the call would have failed) and no key for any target that
was not requested. -/
theorem c3_code_map_keys_requested (provider mdl : String)
    (req : GenerationRequest) (b : Except String AIResponse)
    (emit : Platform → Except String AIResponse) (elapsed : Nat)
    (res : GenerationResponse)
    (h : CrossPlatformGeneratorV1.generate provider mdl req b emit elapsed = .ok res) :
    ∀ p : Platform, (res.code.get p).isSome = req.platforms.contains p := by
  unfold CrossPlatformGeneratorV1.generate at h
  split at h
  · exact absurd h (by simp)
  · split at h
    · exact absurd h (by simp)
    · rename_i cIos tIos hi
      split at h
      · exact absurd h (by simp)
      · rename_i cAnd tAnd ha
        split at h
        · exact absurd h (by simp)
        · rename_i cRn tRn hr
          split at h
          · exact absurd h (by simp)
          · rename_i cWeb tWeb hw
            injection h with h'
            subst h'
            intro p
            cases p with
            | ios => exact emitStep_ok_isSome _ _ _ _ hi
            | android => exact emitStep_ok_isSome _ _ _ _ ha
            | reactNative => exact emitStep_ok_isSome _ _ _ _ hr
            | web => exact emitStep_ok_isSome _ _ _ _ hw

/-- All-success emitter oracle used to witness C3. -/
def emitAllOkC3 : Platform → Except String AIResponse :=
  fun _ => .ok ⟨"// src", some ⟨1, 2, 3⟩, "m"⟩

def reqC3 : GenerationRequest := ⟨"p", [.ios, .web], none⟩

def resC3 : GenerationResponse :=
  ⟨.jobj [], ⟨some "// src", none, none, some "// src"⟩,
   ⟨"claude", "m", 6, 7, [.ios, .web]⟩⟩

/-- Witness for C3 at a concrete successful two-target run. -/
theorem c3_code_map_keys_requested_witness :
    ((resC3.code.get .ios).isSome = reqC3.platforms.contains .ios)
    ∧ ((resC3.code.get .android).isSome = reqC3.platforms.contains .android)
    ∧ ((resC3.code.get .reactNative).isSome = reqC3.platforms.contains .reactNative)
    ∧ ((resC3.code.get .web).isSome = reqC3.platforms.contains .web) :=
  ⟨c3_code_map_keys_requested "claude" "m" reqC3 (.ok ⟨"\x7b\x7d", none, "m"⟩)
      emitAllOkC3 7 resC3 rfl .ios,
   c3_code_map_keys_requested "claude" "m" reqC3 (.ok ⟨"\x7b\x7d", none, "m"⟩)
      emitAllOkC3 7 resC3 rfl .android,
   c3_code_map_keys_requested "claude" "m" reqC3 (.ok ⟨"\x7b\x7d", none, "m"⟩)
      emitAllOkC3 7 resC3 rfl .reactNative,
   c3_code_map_keys_requested "claude" "m" reqC3 (.ok ⟨"\x7b\x7d", none, "m"⟩)
      emitAllOkC3 7 resC3 rfl .web⟩

def reqC8 : GenerationRequest := ⟨"p", [.ios], none⟩

/-- Builder reply reporting 5 total tokens of usage. -/
def bResC8 : Except String AIResponse := .ok ⟨"\x7b\x7d", some ⟨2, 3, 5⟩, "m"⟩

/-- Emitter oracle reporting 7 total tokens of usage per call. -/
def emitC8 : Platform → Except String AIResponse :=
  fun _ => .ok ⟨"// ios", some ⟨3, 4, 7⟩, "m"⟩

/-- Claim C8 as stated, refuted. With one requested target whose emitter
reports 7 tokens and a builder call reporting 5, `generate` stamps
`tokensUsed = 7`: the Application Model Builder call's reported usage is
not part of the sum. -/
theorem c8_counterexample :
    (CrossPlatformGeneratorV1.generate "claude" "m" reqC8 bResC8 emitC8 0).map
        (fun r => r.metadata.tokensUsed) = .ok 7
    ∧ usageTotal ⟨"\x7b\x7d", some ⟨2, 3, 5⟩, "m"⟩ = 5
    ∧ (7 : Nat) ≠ 5 + 7 :=
  ⟨rfl, rfl, by decide⟩

/-- Claim C8, amended. In the V1 variant, `tokensUsed` equals the sum over
the four targets of the requested emitters' reported usage
(`usage?.totalTokens || 0`); the builder call's usage is never included. -/
theorem c8_amended_tokens_sum (provider mdl : String)
    (req : GenerationRequest) (b : Except String AIResponse)
    (emit : Platform → Except String AIResponse) (elapsed : Nat)
    (res : GenerationResponse)
    (h : CrossPlatformGeneratorV1.generate provider mdl req b emit elapsed = .ok res) :
    res.metadata.tokensUsed
      = (if req.platforms.contains .ios then emitUsage (emit .ios) else 0)
        + (if req.platforms.contains .android then emitUsage (emit .android) else 0)
        + (if req.platforms.contains .reactNative then emitUsage (emit .reactNative) else 0)
        + (if req.platforms.contains .web then emitUsage (emit .web) else 0) := by
  unfold CrossPlatformGeneratorV1.generate at h
  split at h
  · exact absurd h (by simp)
  · split at h
    · exact absurd h (by simp)
    · rename_i cIos tIos hi
      split at h
      · exact absurd h (by simp)
      · rename_i cAnd tAnd ha
        split at h
        · exact absurd h (by simp)
        · rename_i cRn tRn hr
          split at h
          · exact absurd h (by simp)
          · rename_i cWeb tWeb hw
            injection h with h'
            subst h'
            show tIos + tAnd + tRn + tWeb = _
            rw [emitStep_ok_tokens _ _ _ _ hi, emitStep_ok_tokens _ _ _ _ ha,
              emitStep_ok_tokens _ _ _ _ hr, emitStep_ok_tokens _ _ _ _ hw]

/-- Witness for the amended C8 at a concrete single-target run. -/
theorem c8_amended_tokens_sum_witness :
    (⟨Json.jobj [], ⟨some "// ios", none, none, none⟩,
        ⟨"claude", "m", 7, 0, [.ios]⟩⟩ : GenerationResponse).metadata.tokensUsed
      = (if reqC8.platforms.contains .ios then emitUsage (emitC8 .ios) else 0)
        + (if reqC8.platforms.contains .android then emitUsage (emitC8 .android) else 0)
        + (if reqC8.platforms.contains .reactNative then emitUsage (emitC8 .reactNative) else 0)
        + (if reqC8.platforms.contains .web then emitUsage (emitC8 .web) else 0) :=
  c8_amended_tokens_sum "claude" "m" reqC8 bResC8 emitC8 0
    ⟨Json.jobj [], ⟨some "// ios", none, none, none⟩, ⟨"claude", "m", 7, 0, [.ios]⟩⟩ rfl

/-! ## Claims about the review/validation consumer -/

/-- Claim C7 as stated, refuted. The claimed formula is the one the code
computes, but its claimed consequence is not: with zero issues and one
warning the score is `round(100 × 1 / 1) = 100`, not strictly below 100. -/
theorem c7_counterexample :
    StoreReviewValidator.scoreOf 0 1 = 100
    ∧ ¬ StoreReviewValidator.scoreOf 0 1 < 100 :=
  ⟨rfl, by decide⟩

/-- Claim C7, amended. `validate`'s score computation agrees with the spec's
formula — 100 with zero issues and zero warnings, otherwise
`round(100 × warnings / (issues + warnings))` — but with zero issues and at
least one warning that formula evaluates to exactly 100: warnings alone
never push the score below 100 (the score drops only when issues exist). -/
theorem c7_amended_scoring_rule (i w : Nat) :
    StoreReviewValidator.scoreOf i w = StoreReviewValidator.specScoreRule i w
    ∧ StoreReviewValidator.scoreOf 0 (w + 1) = 100 := by
  constructor
  · simp only [StoreReviewValidator.scoreOf, StoreReviewValidator.specScoreRule]
    by_cases h : 0 < i + w
    · rw [if_pos h, if_neg (by omega)]
      have harg : (i + w - i) * 100 = 100 * w := by omega
      rw [harg]
    · rw [if_neg h, if_pos (by omega)]
  · simp only [StoreReviewValidator.scoreOf, StoreReviewValidator.jsRound]
    rw [if_pos (by omega)]
    have harg : 2 * ((0 + (w + 1) - 0) * 100) + (0 + (w + 1))
        = (2 * (0 + (w + 1))) * 100 + (0 + (w + 1)) := by omega
    rw [harg, Nat.mul_add_div (by omega), Nat.div_eq_of_lt (by omega)]

/-- Claim C10. `StoreReviewValidator.validate` is not total: for every app
whose `theme.darkMode` flag is absent or `false`, the iOS check path
reaches `warnings.push(...)` on the undeclared name `warnings`, so
`validate(app, 'ios')` and `validate(app, 'react-native')` raise a
`ReferenceError` instead of returning a `ValidationResult`. -/
theorem c10_dark_mode_reference_error (app : StoreReviewValidator.VApp)
    (h : app.themeDarkMode = none ∨ app.themeDarkMode = some false) :
    StoreReviewValidator.validateIOS app = .error ()
    ∧ StoreReviewValidator.validate app .ios = .error ()
    ∧ StoreReviewValidator.validate app .reactNative = .error () := by
  have hf : StoreReviewValidator.truthyBool app.themeDarkMode = false := by
    rcases h with h | h <;> rw [h] <;> rfl
  have hios : StoreReviewValidator.validateIOS app = .error () := by
    unfold StoreReviewValidator.validateIOS
    rw [hf]
    exact rfl
  refine ⟨hios, ?_, ?_⟩ <;> simp [StoreReviewValidator.validate, hios, Except.map]

/-- Witness for C10 at the empty app object (no `theme` at all). -/
theorem c10_dark_mode_reference_error_witness :
    StoreReviewValidator.validateIOS {} = .error ()
    ∧ StoreReviewValidator.validate {} .ios = .error ()
    ∧ StoreReviewValidator.validate {} .reactNative = .error () :=
  c10_dark_mode_reference_error {} (Or.inl rfl)
